import Mathlib

/-!
Shallow embedding of the three scripts of this repository, and proofs of the
behavioural properties stated about them.

Sources embedded:
  * `scripts/generate-quokka.js` (state-board updater): state update, random
    target/coordinate selection, SVG fragment loading and board composition.
  * `scripts/render-quokka-gif.mjs` (scene-to-GIF renderer): leaf lifecycle,
    walker update, collision test, popups, frame loop.
  * the README post-list syncer: frontmatter parsing, per-folder skip logic,
    sort/truncate, marker-delimited README replacement, fatal-error surface.

Randomness (`Math.random()` outcomes) and transcendental values
(`Math.cos`, `Math.sin`, `Math.pow`) are modelled as oracle parameters: every
theorem quantifies over all values the runtime could produce.  Network and
file-system reads are modelled as explicit environment values, the
documented opaque I/O boundary of the scripts.
-/

/- ===================== shared character-list utilities ===================== -/

/-- Whitespace test used to model JavaScript `trim` / `\s` on the ASCII inputs
these scripts handle. -/
def isWsChar (c : Char) : Bool :=
  c == ' ' || c == '\t' || c == '\n' || c == '\r' || c == '\x0b' || c == '\x0c'

/-- Trim whitespace from both ends of a character list (JS `String.trim`). -/
def trimBoth (l : List Char) : List Char :=
  ((l.dropWhile isWsChar).reverse.dropWhile isWsChar).reverse

/-- `startsW s pat` is true when `pat` is a prefix of `s`. -/
def startsW : List Char → List Char → Bool
  | _, [] => true
  | [], _ :: _ => false
  | c :: s, p :: ps => c == p && startsW s ps

/-- `pat` occurs in `s` at index `i`. -/
abbrev occAt (s pat : List Char) (i : ℕ) : Prop :=
  startsW (List.drop i s) pat = true

/-- Index of the first occurrence of `pat` in `s` (JS `String.indexOf` /
regex left-to-right scan). -/
def findSub (pat : List Char) : List Char → Option ℕ
  | [] => if startsW [] pat then some 0 else none
  | c :: t => if startsW (c :: t) pat then some 0 else (findSub pat t).map (· + 1)

/-- JS `String.includes`. -/
def containsSub (s pat : List Char) : Bool := (findSub pat s).isSome

/-- JS `String.endsWith`. -/
def endsWithList (s pat : List Char) : Bool := startsW s.reverse pat.reverse

def strEndsWith (s pat : String) : Bool := endsWithList s.data pat.data

/-- JS `String.split('\n')`: `""` maps to `[""]`, separators delimit fields. -/
def splitNl : List Char → List (List Char)
  | [] => [[]]
  | c :: t =>
    if c == '\n' then [] :: splitNl t
    else
      match splitNl t with
      | [] => [[c]]
      | l :: ls => (c :: l) :: ls

/-- JS `array.join('\n')`. -/
def joinNl : List String → String
  | [] => ""
  | [s] => s
  | s :: rest => s ++ "\n" ++ joinNl rest

/- ===================== state-board updater (generate-quokka.js) ========== -/

/-- The five tech-stack categories of `techStacks`
(`['JS', 'TS', 'React', 'Next.js', 'AI']`). -/
inductive Tech where
  | js
  | ts
  | react
  | nextjs
  | ai
  deriving DecidableEq

/-- `const techStacks = ['JS', 'TS', 'React', 'Next.js', 'AI']`. -/
def techStacks : List Tech := [Tech.js, Tech.ts, Tech.react, Tech.nextjs, Tech.ai]

/-- The JSON key string of each category. -/
def techName : Tech → String
  | Tech.js => "JS"
  | Tech.ts => "TS"
  | Tech.react => "React"
  | Tech.nextjs => "Next.js"
  | Tech.ai => "AI"

/-- The persisted state record `qoukka.json` (see spec section 3). -/
structure QuokkaState where
  quokka_level : ℤ
  eaten_leaves : Tech → ℤ
  current_target : Tech
  posX : ℤ
  posY : ℤ

/-- `Object.values(state.eaten_leaves).reduce((a, b) => a + b, 0)`:
sum of all category counts. -/
def totalEaten (f : Tech → ℤ) : ℤ := (techStacks.map f).sum

/-- The state transition of `generate-quokka.js` lines 17-28: increment the
count of the previous target, recompute the level as
`Math.floor(totalEaten / 5) + 1`, draw a new target
`techStacks[Math.floor(Math.random() * techStacks.length)]` and new
coordinates `Math.floor(Math.random() * 600) + 50`,
`Math.floor(Math.random() * 200) + 100`.  `r1 r2 r3` are the three
`Math.random()` outcomes, each in `[0, 1)`. -/
def updateState (s : QuokkaState) (r1 r2 r3 : ℚ) : QuokkaState :=
  let eaten : Tech → ℤ :=
    fun t => if t = s.current_target then s.eaten_leaves t + 1 else s.eaten_leaves t
  { quokka_level := ⌊(totalEaten eaten : ℚ) / 5⌋ + 1
    eaten_leaves := eaten
    current_target := techStacks.getD (⌊r1 * (techStacks.length : ℚ)⌋).toNat Tech.js
    posX := ⌊r2 * 600⌋ + 50
    posY := ⌊r3 * 200⌋ + 100 }

/-- The asset directory, as a partial map from file name to file content
(`none` models `!fs.existsSync(filePath)`). -/
def FileSys : Type := String → Option String

/-- One left-to-right pass of
`content.replace(/<svg[^>]*>|<\/svg>/g, '')`: removes every `<svg ...>`
opening tag (up to and including the first following `>`) and every
`</svg>` closing tag.  `fuel` bounds the recursion; each step consumes at
least one input character, so `fuel = length` is always enough. -/
def stripSvgAux : ℕ → List Char → List Char
  | 0, s => s
  | _ + 1, [] => []
  | fuel + 1, c :: rest =>
    if c == '<' && startsW rest ['s', 'v', 'g'] then
      match (rest.drop 3).dropWhile (fun d => d != '>') with
      | '>' :: tl => stripSvgAux fuel tl
      | _ => c :: stripSvgAux fuel rest
    else if c == '<' && startsW rest ['/', 's', 'v', 'g', '>'] then
      stripSvgAux fuel (rest.drop 5)
    else c :: stripSvgAux fuel rest

def stripSvgTags (s : String) : String := String.mk (stripSvgAux s.data.length s.data)

/-- `getSvgContent` of `generate-quokka.js` lines 38-44: a missing file
yields `''`; an existing file yields its content with the `<svg>` wrapper
tags stripped. -/
def getSvgContent (fsys : FileSys) (filename : String) : String :=
  match fsys filename with
  | none => ""
  | some content => stripSvgTags content

def toLowerStr (s : String) : String := String.mk (s.data.map Char.toLower)

/-- JS `String.replace('.', '')` with a string pattern: removes only the
first `.`. -/
def removeFirstDot : List Char → List Char
  | [] => []
  | c :: t => if c == '.' then t else c :: removeFirstDot t

/-- `` `leaf-${state.current_target.toLowerCase().replace('.', '')}.svg` ``. -/
def leafFileNameOf (t : Tech) : String :=
  "leaf-" ++ String.mk (removeFirstDot (toLowerStr (techName t)).data) ++ ".svg"

/-- The composed board document (`finalSvg` template, lines 52-75, after the
final `.trim()`).  Parameters: the updated state, the random leaf
coordinates, and the two loaded fragment contents. -/
def finalSvg (s : QuokkaState) (leafX leafY : ℤ) (targetLeafContent quokkaContent : String) :
    String :=
  String.mk (trimBoth (
    "\n<svg width=\"800\" height=\"400\" viewBox=\"0 0 800 400\" xmlns=\"http://www.w3.org/2000/svg\" shape-rendering=\"crispEdges\">\n"
    ++ "  <rect width=\"100%\" height=\"100%\" fill=\"#FFF8D6\" rx=\"15\" />\n"
    ++ "  \n"
    ++ "  <text x=\"30\" y=\"40\" font-family=\"monospace\" font-size=\"20\" font-weight=\"bold\" fill=\"#333\">\n"
    ++ "    Lv." ++ toString s.quokka_level ++ " Quokka\x27s Tech Stack\n"
    ++ "  </text>\n"
    ++ "  \n"
    ++ "  <text x=\"30\" y=\"70\" font-family=\"monospace\" font-size=\"16\" fill=\"#555\">\n"
    ++ "    🍃 JS: " ++ toString (s.eaten_leaves Tech.js)
    ++ " | TS: " ++ toString (s.eaten_leaves Tech.ts)
    ++ " | React: " ++ toString (s.eaten_leaves Tech.react)
    ++ " | Next.js: " ++ toString (s.eaten_leaves Tech.nextjs)
    ++ " | AI: " ++ toString (s.eaten_leaves Tech.ai) ++ "\n"
    ++ "  </text>\n"
    ++ "  <text x=\"30\" y=\"95\" font-family=\"monospace\" font-size=\"14\" fill=\"#888\">\n"
    ++ "    * Quokka is hunting for [" ++ techName s.current_target ++ "] today!\n"
    ++ "  </text>\n\n"
    ++ "  <g transform=\"translate(" ++ toString leafX ++ ", " ++ toString leafY ++ ") scale(1.5)\">\n"
    ++ "    " ++ targetLeafContent ++ "\n"
    ++ "  </g>\n\n"
    ++ "  <g transform=\"translate(" ++ toString s.posX ++ ", " ++ toString s.posY ++ ") scale(3)\">\n"
    ++ "    " ++ quokkaContent ++ "\n"
    ++ "  </g>\n</svg>\n").data)

/-- One full run of `generate-quokka.js` after the state file has been
parsed: returns the persisted new state and the written board SVG.
`r1 .. r5` are the five `Math.random()` outcomes in program order
(target, quokka x, quokka y, leaf x, leaf y). -/
def generateBoard (fsys : FileSys) (s : QuokkaState) (r1 r2 r3 r4 r5 : ℚ) :
    QuokkaState × String :=
  let s2 := updateState s r1 r2 r3
  let leafX : ℤ := ⌊r4 * 600⌋ + 50
  let leafY : ℤ := ⌊r5 * 200⌋ + 150
  let quokkaContent := getSvgContent fsys ("quokka.svg")
  let targetLeafContent := getSvgContent fsys (leafFileNameOf s2.current_target)
  (s2, finalSvg s2 leafX leafY targetLeafContent quokkaContent)

/- ===================== scene-to-GIF renderer (render-quokka-gif.mjs) ===== -/

/-- `leaf.state` values: `"alive" | "eating" | "dead"`. -/
inductive LeafState where
  | alive
  | eating
  | dead
  deriving DecidableEq

/-- A pickup item (`createLeaves` element).  The raster image handle is
omitted (opaque I/O); `label` is the `+STACK` popup key. -/
structure Leaf where
  id : ℕ
  label : String
  state : LeafState
  eatStartMs : ℕ
  eatDurationMs : ℕ
  respawnAt : ℕ
  x : ℚ
  y : ℚ
  r : ℚ
  deriving DecidableEq

/-- The walker (`createQuokka`). -/
structure Quokka where
  x : ℚ
  y : ℚ
  vx : ℚ
  vy : ℚ
  dirX : ℚ
  dirY : ℚ
  nextDirAt : ℕ
  speed : ℚ
  r : ℚ
  deriving DecidableEq

/-- A floating `+STACK` popup (`createPopup`). -/
structure Popup where
  text : String
  x : ℚ
  y : ℚ
  startMs : ℕ
  durationMs : ℕ
  deriving DecidableEq

/-- `clamp(n, a, b) = Math.max(a, Math.min(b, n))`. -/
def clampQ (n a b : ℚ) : ℚ := max a (min b n)

/-- Squared Euclidean distance (`dist2`). -/
def dist2 (ax ay bx byy : ℚ) : ℚ := (ax - bx) * (ax - bx) + (ay - byy) * (ay - byy)

/-- The leaf label cycle of `ASSETS.leaves`. -/
def leafKeys : List String := ["JS", "REACT", "TS", "NEXT", "AI"]

/-- `createLeaves`: nine leaves, labels cycling through `leafKeys`,
positions drawn from the spawn zones (modelled by the `spawn` oracle). -/
def createLeaves (spawn : ℕ → ℚ × ℚ) : List Leaf :=
  (List.range 9).map fun i =>
    { id := i
      label := leafKeys.getD (i % leafKeys.length) ""
      state := LeafState.alive
      eatStartMs := 0
      eatDurationMs := 250
      respawnAt := 0
      x := (spawn i).1
      y := (spawn i).2
      r := 14 }

/-- `respawnLeaf`: back to `alive` at a fresh spawn point. -/
def respawnLeaf (lf : Leaf) (p : ℚ × ℚ) : Leaf :=
  { lf with state := LeafState.alive, x := p.1, y := p.2, respawnAt := 0, eatStartMs := 0 }

/-- `startEatLeaf`. -/
def startEatLeaf (lf : Leaf) (nowMs : ℕ) : Leaf :=
  { lf with state := LeafState.eating, eatStartMs := nowMs }

/-- `finishEatLeaf`; `delay` is the `randInt(1400, 3600)` outcome. -/
def finishEatLeaf (lf : Leaf) (nowMs : ℕ) (delay : ℕ) : Leaf :=
  { lf with state := LeafState.dead, respawnAt := nowMs + delay }

/-- `createQuokka(groundY)` (reads the global `WIDTH`). -/
def createQuokka (W groundY : ℚ) : Quokka :=
  { x := W * (1 / 2)
    y := groundY + 26
    vx := 0
    vy := 0
    dirX := 1
    dirY := 0
    nextDirAt := 0
    speed := 56
    r := 18 }

/-- `updateQuokka(q, dtSec, nowMs, groundY)`.  `cosA`/`sinA` model
`Math.cos(angle)`/`Math.sin(angle)` for the random heading, `dirDelay`
models `randInt(320, 900)`, and `damp` models `Math.pow(0.06, dtSec)`. -/
def updateQuokka (q : Quokka) (dtSec : ℚ) (nowMs : ℕ) (groundY W H : ℚ)
    (cosA sinA : ℚ) (dirDelay : ℕ) (damp : ℚ) : Quokka :=
  let q1 :=
    if q.nextDirAt ≤ nowMs then
      { q with dirX := cosA, dirY := sinA * (35 / 100), nextDirAt := nowMs + dirDelay }
    else q
  let ax := q1.dirX * q1.speed * (22 / 10)
  let ay := q1.dirY * q1.speed * (22 / 10)
  let vx := (q1.vx + ax * dtSec) * damp
  let vy := (q1.vy + ay * dtSec) * damp
  let x := clampQ (q1.x + vx * dtSec) 20 (W - 20)
  let y := clampQ (q1.y + vy * dtSec) (groundY + 12) (H - 10)
  let nda1 := if x ≤ 22 ∨ x ≥ W - 22 then 0 else q1.nextDirAt
  let nda2 := if y ≤ groundY + 14 ∨ y ≥ H - 12 then 0 else nda1
  { q1 with vx := vx, vy := vy, x := x, y := y, nextDirAt := nda2 }

/-- `collideStartEat(q, leaf, nowMs)`: returns whether eating started, plus
the (possibly) updated leaf.  Fires only for `alive` leaves. -/
def collideStartEat (q : Quokka) (lf : Leaf) (nowMs : ℕ) : Bool × Leaf :=
  if lf.state ≠ LeafState.alive then (false, lf)
  else if dist2 q.x q.y lf.x lf.y ≤ (q.r + lf.r) * (q.r + lf.r) then
    (true, startEatLeaf lf nowMs)
  else (false, lf)

/-- `createPopup(text, x, y, nowMs)`. -/
def createPopup (text : String) (x y : ℚ) (nowMs : ℕ) : Popup :=
  { text := "+" ++ text, x := x, y := y, startMs := nowMs, durationMs := 1200 }

/-- `updatePopups`: keep popups with `nowMs - p.startMs <= p.durationMs`. -/
def updatePopups (popups : List Popup) (nowMs : ℕ) : List Popup :=
  popups.filter fun p => decide ((nowMs : ℤ) - p.startMs ≤ p.durationMs)

/-- The respawn pass of the frame loop: a `dead` leaf whose `respawnAt` has
passed respawns at the oracle-chosen point `p`. -/
def respawnPhase (nowMs : ℕ) (p : ℚ × ℚ) (lf : Leaf) : Leaf :=
  if lf.state = LeafState.dead ∧ lf.respawnAt ≤ nowMs then respawnLeaf lf p else lf

/-- The finish-eating pass of the frame loop: an `eating` leaf whose
duration has elapsed dies; `delay` is the `randInt(1400, 3600)` outcome. -/
def finishPhase (nowMs : ℕ) (delay : ℕ) (lf : Leaf) : Leaf :=
  if lf.state = LeafState.eating ∧ (lf.eatDurationMs : ℤ) ≤ (nowMs : ℤ) - lf.eatStartMs then
    finishEatLeaf lf nowMs delay
  else lf

/-- What one frame of the main loop does to a single leaf:
respawn pass, then collision pass (against the already-updated walker),
then finish-eating pass. -/
def stepLeaf (q : Quokka) (nowMs : ℕ) (p : ℚ × ℚ) (delay : ℕ) (lf : Leaf) : Leaf :=
  finishPhase nowMs delay (collideStartEat q (respawnPhase nowMs p lf) nowMs).2

/-- Per-frame random outcomes: spawn points and respawn delays per leaf id,
heading cosine/sine, heading delay, damping factor. -/
structure StepOracle where
  spawn : ℕ → ℚ × ℚ
  cosA : ℚ
  sinA : ℚ
  dirDelay : ℕ
  damp : ℚ
  respawnDelay : ℕ → ℕ

/-- The in-memory entities of one run. -/
structure SimState where
  leaves : List Leaf
  quokka : Quokka
  popups : List Popup

/-- The collision pass of one frame: each leaf (after the respawn pass)
paired with the result of `collideStartEat` against the updated walker. -/
def collidePairs (o : StepOracle) (nowMs : ℕ) (dtSec groundY W H : ℚ) (s : SimState) :
    List (Leaf × Bool × Leaf) :=
  let leaves1 := s.leaves.map fun lf => respawnPhase nowMs (o.spawn lf.id) lf
  let q2 := updateQuokka s.quokka dtSec nowMs groundY W H o.cosA o.sinA o.dirDelay o.damp
  leaves1.map fun lf => (lf, collideStartEat q2 lf nowMs)

/-- One iteration of the frame loop (`main`, lines 495-526): respawn dead
leaves, update the walker, run collisions (each hit pushes one popup),
finish eating, filter popups. -/
def simStep (o : StepOracle) (nowMs : ℕ) (dtSec groundY W H : ℚ) (s : SimState) : SimState :=
  let q2 := updateQuokka s.quokka dtSec nowMs groundY W H o.cosA o.sinA o.dirDelay o.damp
  let pairs := collidePairs o nowMs dtSec groundY W H s
  let newPopups := (pairs.filter fun pr => pr.2.1).map fun pr =>
    createPopup pr.1.label q2.x q2.y nowMs
  let leaves2 := pairs.map fun pr => finishPhase nowMs (o.respawnDelay pr.2.2.id) pr.2.2
  { leaves := leaves2
    quokka := q2
    popups := updatePopups (s.popups ++ newPopups) nowMs }

/-- `FRAMES = Math.max(1, Math.floor(FPS * DURATION_SEC))`. -/
def framesOf (fps dur : ℚ) : ℕ := (max 1 ⌊fps * dur⌋).toNat

/-- `nowMs = Math.floor((i * 1000) / FPS)`. -/
def nowOf (fps : ℚ) (i : ℕ) : ℕ := (⌊(i : ℚ) * 1000 / fps⌋).toNat

/-- The frame loop, collecting the state after each of the `k` remaining
steps (one GIF frame is appended per step). -/
def traceAux (o : ℕ → StepOracle) (fps groundY W H : ℚ) :
    ℕ → ℕ → SimState → List SimState
  | 0, _, _ => []
  | k + 1, i, s =>
    let s2 := simStep (o i) (nowOf fps i) (1 / fps) groundY W H s
    s2 :: traceAux o fps groundY W H k (i + 1) s2

/-- The whole simulation: `FRAMES` iterations starting from frame 0. -/
def simTrace (o : ℕ → StepOracle) (fps dur groundY W H : ℚ) (init : SimState) :
    List SimState :=
  traceAux o fps groundY W H (framesOf fps dur) 0 init

/-- `const groundY = Math.floor(HEIGHT * 0.58)` (exact-rational reading of
the constant; no claim depends on its value). -/
def groundYOf (H : ℚ) : ℤ := ⌊H * (58 / 100)⌋

/-- Initial entities of `main`. -/
def initSim (spawn0 : ℕ → ℚ × ℚ) (W groundY : ℚ) : SimState :=
  { leaves := createLeaves spawn0
    quokka := createQuokka W groundY
    popups := [] }

/- ===================== README post-list syncer =========================== -/

/-- A collected blog-post record. -/
structure Post where
  title : String
  date : String
  description : String
  slug : String
  url : String
  deriving DecidableEq

def maxPosts : ℕ := 5

def blogBaseUrl : String := "https://oddn.ai.kr"

/-- `key`-descending stable insertion (ties keep original order), modelling
`posts.sort((a, b) => new Date(b.date) - new Date(a.date))` with a stable
sort and `dateVal` the opaque date-parsing function. -/
def insertPost (key : Post → ℤ) (p : Post) : List Post → List Post
  | [] => [p]
  | q :: qs => if key q ≤ key p then p :: q :: qs else q :: insertPost key p qs

def sortPosts (key : Post → ℤ) : List Post → List Post
  | [] => []
  | p :: ps => insertPost key p (sortPosts key ps)

/-- Strip one leading and one trailing quote:
`value.replace(/^["']|["']$/g, '')`. -/
def stripQuotes (v : List Char) : List Char :=
  let v1 :=
    match v with
    | [] => []
    | c :: t => if c == '"' || c == '\x27' then t else c :: t
  match v1.reverse with
  | [] => v1
  | c :: t => if c == '"' || c == '\x27' then t.reverse else v1

/-- Assign `frontmatter[key] = value` (later lines overwrite earlier). -/
def setKV (m : List (String × String)) (k v : String) : List (String × String) :=
  if m.any fun e => e.1 == k then
    m.map fun e => if e.1 == k then (k, v) else e
  else m ++ [(k, v)]

def lookupFm (m : List (String × String)) (k : String) : Option String :=
  (m.find? fun e => e.1 == k).map fun e => e.2

/-- JS truthiness of a possibly-missing string field (`undefined` and `''`
are falsy). -/
def truthy : Option String → Bool
  | none => false
  | some s => s != ""

/-- Parse the `key: value` lines of the frontmatter body
(lines 58-69 of the syncer). -/
def parseFmLines (lines : List (List Char)) : List (String × String) :=
  lines.foldl
    (fun m line =>
      match line.findIdx? fun c => c == ':' with
      | none => m
      | some i =>
        let key := String.mk (trimBoth (line.take i))
        let value := String.mk (stripQuotes (trimBoth (line.drop (i + 1))))
        if key == "" then m else setKV m key value)
    []

/-- Descending list of the indices of `'\n'` inside `run` — the candidate
end positions of the greedy `\s*` in `/^---\s*\n/`, most-greedy first. -/
def nlIdxsDesc (run : List Char) : List ℕ :=
  ((List.range run.length).filter fun k => run.getD k ' ' == '\n').reverse

/-- Try each candidate split of the frontmatter regex
`^---\s*\n([\s\S]*?)\n---` in regex backtracking order: the lazy group runs
from just after the chosen `'\n'` to the first following `"\n---"`. -/
def tryBodyAt (rest : List Char) : List ℕ → Option (List Char)
  | [] => none
  | k :: ks =>
    match findSub ['\n', '-', '-', '-'] (rest.drop (k + 1)) with
    | some u => some ((rest.drop (k + 1)).take u)
    | none => tryBodyAt rest ks

/-- The capture group of `content.match` on the frontmatter regex
`^---\s*\n([\s\S]*?)\n---`, or `none` when the regex does not match. -/
def fmBody (content : List Char) : Option (List Char) :=
  if startsW content ['-', '-', '-'] then
    let rest := content.drop 3
    tryBodyAt rest (nlIdxsDesc (rest.takeWhile isWsChar))
  else none

/-- `parseFrontmatter` (lines 51-72): `{}` when the delimiters are absent,
else the parsed `key: value` map. -/
def parseFrontmatter (content : String) : List (String × String) :=
  match fmBody content.data with
  | none => []
  | some body => parseFmLines (splitNl body)

/-- A remote blog folder as the syncer observes it: the root-listing entry
fields plus the results of the (caught) per-folder fetches.  `files` is the
folder listing (file names), `content` the decoded content fetch per file
name; `Except.error` models a rejected request, which the loop catches. -/
structure RemoteFolder where
  name : String
  typ : String
  files : Except Unit (List String)
  content : String → Except Unit String

/-- The decoded top-level response: a JSON array of entries, or anything
else (`!Array.isArray(blogDir)`). -/
inductive RootResp where
  | arr (entries : List RemoteFolder)
  | nonArray

/-- The run environment: the credential, the root response and the local
README content (`none` models a missing file). -/
structure SyncEnv where
  token : Option String
  root : RootResp
  readme : Option String

/-- `dirContents.find((f) => f.name.endsWith('.mdx')) ||
dirContents.find((f) => f.name.endsWith('.md'))`. -/
def selectContentFile (names : List String) : Option String :=
  match names.find? fun n => strEndsWith n (".mdx") with
  | some f => some f
  | none => names.find? fun n => strEndsWith n (".md")

/-- The body of the per-folder `try` block (lines 91-128): `none` when the
folder is skipped (fetch error, no MDX/MD file, or missing `title`/`date`),
`some post` otherwise. -/
def processFolder (f : RemoteFolder) : Option Post :=
  match f.files with
  | Except.error _ => none
  | Except.ok names =>
    match selectContentFile names with
    | none => none
    | some fileName =>
      match f.content fileName with
      | Except.error _ => none
      | Except.ok raw =>
        let fm := parseFrontmatter raw
        if truthy (lookupFm fm ("title")) && truthy (lookupFm fm ("date")) then
          some
            { title := (lookupFm fm ("title")).getD ""
              date := (lookupFm fm ("date")).getD ""
              description := (lookupFm fm ("description")).getD ""
              slug := f.name
              url := blogBaseUrl ++ "/" ++ f.name }
        else none

/-- Folder filtering and collection of `getLatestPosts` (lines 85-129). -/
def collectPosts (entries : List RemoteFolder) : List Post :=
  (entries.filter fun f => f.typ == "dir").filterMap processFolder

/-- Sort by date descending, truncate to `MAX_POSTS` (lines 131-134). -/
def latestList (entries : List RemoteFolder) (dateVal : String → ℤ) : List Post :=
  (sortPosts (fun p => dateVal p.date) (collectPosts entries)).take maxPosts

/-- `getLatestPosts`: fatal when the root response is not an array. -/
def getLatestPosts (env : SyncEnv) (dateVal : String → ℤ) : Except String (List Post) :=
  match env.root with
  | RootResp.nonArray => Except.error "Unexpected response from GitHub API"
  | RootResp.arr entries => Except.ok (latestList entries dateVal)

def startMarkerStr : String := "<!-- BLOG-POST-LIST:START -->"

def endMarkerStr : String := "<!-- BLOG-POST-LIST:END -->"

def startChars : List Char := startMarkerStr.data

def endChars : List Char := endMarkerStr.data

/-- One generated line:
`` `- [${post.title}](${post.url}) <sub>${formatDate(post.date)}</sub>` ``;
`fmtDate` models the opaque `toLocaleDateString('ko-KR', ...)`. -/
def postLine (fmtDate : String → String) (p : Post) : String :=
  "- [" ++ p.title ++ "](" ++ p.url ++ ") <sub>" ++ fmtDate p.date ++ "</sub>"

/-- `` `${startMarker}\n${postLines.join('\n')}\n${endMarker}` ``. -/
def sectionChars (posts : List Post) (fmtDate : String → String) : List Char :=
  (startMarkerStr ++ "\n" ++ joinNl (posts.map (postLine fmtDate)) ++ "\n" ++ endMarkerStr).data

/-- First match of the regex `` `${startMarker}[\s\S]*?${endMarker}` ``:
the least index where the start marker occurs followed by an end marker,
paired with the index of the first end marker after it. -/
def findMarkerMatch : List Char → Option (ℕ × ℕ)
  | [] => none
  | c :: t =>
    if startsW (c :: t) startChars then
      match findSub endChars ((c :: t).drop startChars.length) with
      | some u => some (0, startChars.length + u)
      | none => none
    else (findMarkerMatch t).map fun pr => (pr.1 + 1, pr.2 + 1)

/-- `readme.replace(new RegExp(...), newSection)` (non-global: first match
only; no match leaves the text unchanged). -/
def replaceMarkers (s newSection : List Char) : List Char :=
  match findMarkerMatch s with
  | none => s
  | some (i, j) => s.take i ++ newSection ++ s.drop (j + endChars.length)

/-- `!GITHUB_TOKEN` (absent or empty is falsy). -/
def tokenOk : Option String → Bool
  | none => false
  | some s => s != ""

/-- Whether an `Except` run ended in the fatal path
(`main().catch(... process.exit(1))`). -/
def isFatal : Except String α → Bool
  | Except.error _ => true
  | Except.ok _ => false

/-- `main` (lines 176-189) plus `updateReadme` (lines 146-174): returns
`ok none` when the run completes without touching the README, `ok (some c)`
when it writes content `c`, `error e` when it exits non-zero. -/
def mainSync (env : SyncEnv) (dateVal : String → ℤ) (fmtDate : String → String) :
    Except String (Option (List Char)) :=
  if tokenOk env.token = false then
    Except.error "GITHUB_TOKEN environment variable is required"
  else
    match getLatestPosts env dateVal with
    | Except.error e => Except.error e
    | Except.ok posts =>
      if posts.length = 0 then Except.ok none
      else
        match env.readme with
        | none => Except.error "README.md not found"
        | some readme =>
          if containsSub readme.data startChars && containsSub readme.data endChars then
            Except.ok (some (replaceMarkers readme.data (sectionChars posts fmtDate)))
          else Except.error "BLOG-POST-LIST markers not found in README.md"

/-- The amended fatality condition (spec side, for claim C3): fatal exactly
when the credential is absent/empty, or the root listing is not an array,
or at least one post was collected and the README is missing or lacks at
least one of the two markers. -/
def fatalSpec (env : SyncEnv) (dateVal : String → ℤ) : Bool :=
  !(tokenOk env.token) ||
  match env.root with
  | RootResp.nonArray => true
  | RootResp.arr entries =>
    decide (0 < (latestList entries dateVal).length) &&
      match env.readme with
      | none => true
      | some readme => !(containsSub readme.data startChars && containsSub readme.data endChars)

/- ===================== concrete instances used by witnesses ============== -/

/-- A small concrete state record. -/
def sInit : QuokkaState :=
  { quokka_level := 1
    eaten_leaves := fun _ => 0
    current_target := Tech.js
    posX := 0
    posY := 0 }

/-- The empty asset directory. -/
def fsysEmpty : FileSys := fun _ => none

/-- A concrete leaf currently being eaten. -/
def lfEating : Leaf :=
  { id := 0
    label := "JS"
    state := LeafState.eating
    eatStartMs := 100
    eatDurationMs := 250
    respawnAt := 0
    x := 0
    y := 0
    r := 14 }

/-- A concrete walker (defaults: 720 wide, groundY 116). -/
def qInit : Quokka := createQuokka 720 116

/-- A concrete step oracle. -/
def oracle0 : StepOracle :=
  { spawn := fun _ => (100, 150)
    cosA := 1
    sinA := 0
    dirDelay := 400
    damp := 1 / 2
    respawnDelay := fun _ => 1400 }

/-- A popup spawned at time 0. -/
def popup0 : Popup := createPopup ("JS") 360 100 0

/-- A concrete sim state holding one stale popup and no leaves. -/
def simState0 : SimState := { leaves := [], quokka := qInit, popups := [popup0] }

/-- Date and format oracles for concrete syncer runs. -/
def dv0 : String → ℤ := fun _ => 0

def fmt0 : String → String := fun s => s

/-- A frontmatter file with title and date. -/
def fmText : String := "---\ntitle: T\ndate: D\n---"

/-- A frontmatter file matching the end-to-end example of the spec. -/
def fmTextHello : String := "---\ntitle: \"Hello\"\ndate: \"2024-01-01\"\n---"

def folderA : RemoteFolder :=
  { name := "a", typ := "dir", files := Except.ok ["p.md"], content := fun _ => Except.ok fmText }

def folderB : RemoteFolder :=
  { name := "b", typ := "dir", files := Except.ok ["p.md"], content := fun _ => Except.ok fmText }

def folderW : RemoteFolder :=
  { name := "w"
    typ := "dir"
    files := Except.ok ["a.mdx"]
    content := fun _ => Except.ok fmTextHello }

/-- The post that `folderW` yields. -/
def postW : Post :=
  { title := "Hello"
    date := "2024-01-01"
    description := ""
    slug := "w"
    url := "https://oddn.ai.kr/w" }

/-- A README containing only the start marker. -/
def readme3 : String := "X<!-- BLOG-POST-LIST:START -->Y"

/-- Environment for the C3 counterexample: good token, array root with one
qualifying folder, README with only one of the two markers. -/
def env3 : SyncEnv :=
  { token := some ("t"), root := RootResp.arr [folderA], readme := some readme3 }

/-- Environment with a good token, an empty root array (so zero posts). -/
def env8 : SyncEnv := { token := some ("t"), root := RootResp.arr [], readme := none }

def preW : List Char := "Intro\n".data

def midW : List Char := "old content".data

def restW : List Char := "\nOutro".data

/- ===================== theorems ========================================== -/

/- ---- helper lemmas ---- -/

theorem getD_mem_techStacks (n : ℕ) : techStacks.getD n Tech.js ∈ techStacks := by
  match n with
  | 0 | 1 | 2 | 3 | 4 => decide
  | m + 5 =>
    show Tech.js ∈ techStacks
    decide

theorem clampQ_bounds (n a b : ℚ) (h : a ≤ b) : a ≤ clampQ n a b ∧ clampQ n a b ≤ b :=
  ⟨le_max_left a (min b n), max_le h (min_le_left b n)⟩

/- ---- C1 ---- -/

/-- C1: after one run of the state-board updater, the stored `quokka_level`
equals `floor(total_eaten / 5) + 1` where `total_eaten` sums all category
counts including the one just incremented for the previous target; and the
level is recomputed from the counts alone — the prior stored level has no
influence on the outcome of the run. -/
theorem state_board_level_recomputed (s : QuokkaState) (r1 r2 r3 : ℚ) (L : ℤ) :
    (updateState s r1 r2 r3).quokka_level
      = ⌊(totalEaten (updateState s r1 r2 r3).eaten_leaves : ℚ) / 5⌋ + 1
    ∧ updateState { s with quokka_level := L } r1 r2 r3 = updateState s r1 r2 r3 :=
  ⟨rfl, rfl⟩

/- ---- C5 ---- -/

/-- C5: for every random outcome in `[0, 1)`, the new `current_target` is an
element of the fixed category list, and the new coordinates satisfy
`50 ≤ x ≤ 649` and `100 ≤ y ≤ 299`. -/
theorem state_board_random_ranges (s : QuokkaState) (r1 r2 r3 : ℚ)
    (h2a : 0 ≤ r2) (h2b : r2 < 1) (h3a : 0 ≤ r3) (h3b : r3 < 1) :
    (updateState s r1 r2 r3).current_target ∈ techStacks
    ∧ 50 ≤ (updateState s r1 r2 r3).posX ∧ (updateState s r1 r2 r3).posX ≤ 649
    ∧ 100 ≤ (updateState s r1 r2 r3).posY ∧ (updateState s r1 r2 r3).posY ≤ 299 := by
  have hx0 : (0:ℤ) ≤ ⌊r2 * 600⌋ := Int.floor_nonneg.mpr (by positivity)
  have hx1 : ⌊r2 * 600⌋ < 600 := Int.floor_lt.mpr (by push_cast; nlinarith)
  have hy0 : (0:ℤ) ≤ ⌊r3 * 200⌋ := Int.floor_nonneg.mpr (by positivity)
  have hy1 : ⌊r3 * 200⌋ < 200 := Int.floor_lt.mpr (by push_cast; nlinarith)
  refine ⟨getD_mem_techStacks _, ?_, ?_, ?_, ?_⟩
  · show 50 ≤ ⌊r2 * 600⌋ + 50
    omega
  · show ⌊r2 * 600⌋ + 50 ≤ 649
    omega
  · show 100 ≤ ⌊r3 * 200⌋ + 100
    omega
  · show ⌊r3 * 200⌋ + 100 ≤ 299
    omega

/-- Witness for C5 at the concrete random outcomes `0`. -/
theorem state_board_random_ranges_witness :
    (updateState sInit 0 0 0).current_target ∈ techStacks
    ∧ 50 ≤ (updateState sInit 0 0 0).posX ∧ (updateState sInit 0 0 0).posX ≤ 649
    ∧ 100 ≤ (updateState sInit 0 0 0).posY ∧ (updateState sInit 0 0 0).posY ≤ 299 :=
  state_board_random_ranges sInit 0 0 0 (le_refl 0) zero_lt_one (le_refl 0) zero_lt_one

/- ---- C9 ---- -/

/-- C9: a missing SVG fragment file (target-leaf sprite or walker sprite)
does not fail the run: the loader returns the empty string and the board is
still composed and written, with an empty embed in the corresponding
slot. -/
theorem svg_fragment_missing_degrades (fsys : FileSys) (s : QuokkaState) (r1 r2 r3 r4 r5 : ℚ) :
    (fsys (leafFileNameOf (updateState s r1 r2 r3).current_target) = none →
      getSvgContent fsys (leafFileNameOf (updateState s r1 r2 r3).current_target) = ""
      ∧ (generateBoard fsys s r1 r2 r3 r4 r5).2
          = finalSvg (updateState s r1 r2 r3) (⌊r4 * 600⌋ + 50) (⌊r5 * 200⌋ + 150) ""
              (getSvgContent fsys ("quokka.svg")))
    ∧ (fsys ("quokka.svg") = none →
      getSvgContent fsys ("quokka.svg") = ""
      ∧ (generateBoard fsys s r1 r2 r3 r4 r5).2
          = finalSvg (updateState s r1 r2 r3) (⌊r4 * 600⌋ + 50) (⌊r5 * 200⌋ + 150)
              (getSvgContent fsys (leafFileNameOf (updateState s r1 r2 r3).current_target)) "") := by
  constructor
  · intro h
    have e1 : getSvgContent fsys (leafFileNameOf (updateState s r1 r2 r3).current_target) = "" := by
      simp [getSvgContent, h]
    have base : (generateBoard fsys s r1 r2 r3 r4 r5).2
        = finalSvg (updateState s r1 r2 r3) (⌊r4 * 600⌋ + 50) (⌊r5 * 200⌋ + 150)
            (getSvgContent fsys (leafFileNameOf (updateState s r1 r2 r3).current_target))
            (getSvgContent fsys ("quokka.svg")) := rfl
    exact ⟨e1, by rw [base, e1]⟩
  · intro h
    have e1 : getSvgContent fsys ("quokka.svg") = "" := by
      simp [getSvgContent, h]
    have base : (generateBoard fsys s r1 r2 r3 r4 r5).2
        = finalSvg (updateState s r1 r2 r3) (⌊r4 * 600⌋ + 50) (⌊r5 * 200⌋ + 150)
            (getSvgContent fsys (leafFileNameOf (updateState s r1 r2 r3).current_target))
            (getSvgContent fsys ("quokka.svg")) := rfl
    exact ⟨e1, by rw [base, e1]⟩

/-- Witness for C9 on the empty asset directory. -/
theorem svg_fragment_missing_witness :
    getSvgContent fsysEmpty (leafFileNameOf (updateState sInit 0 0 0).current_target) = ""
    ∧ (generateBoard fsysEmpty sInit 0 0 0 0 0).2
        = finalSvg (updateState sInit 0 0 0) (⌊(0:ℚ) * 600⌋ + 50) (⌊(0:ℚ) * 200⌋ + 150) ""
            (getSvgContent fsysEmpty ("quokka.svg")) :=
  (svg_fragment_missing_degrades fsysEmpty sInit 0 0 0 0 0).1 rfl

/- ---- C2 ---- -/

/-- C2: each pass of the frame loop moves a leaf only along the cycle
`alive → eating → dead → alive`: the respawn pass fires only on `dead`
leaves and yields `alive`; the collision test returns `(false, leaf)`
unchanged whenever the leaf is not `alive` (so `eating` and `dead` leaves
are never considered), and when it fires it turns an `alive` leaf into
`eating`; the finish pass fires only on `eating` leaves and yields `dead`.
Moreover a leaf that is `eating` cannot re-enter `eating` within a step:
if it is still `eating` after the whole per-leaf step, its `eatStartMs` is
unchanged (same eating episode), and it can never be `alive` right after
the step. -/
theorem scene_item_lifecycle (lf : Leaf) (q : Quokka) (nowMs : ℕ) (p : ℚ × ℚ) (d : ℕ) :
    (respawnPhase nowMs p lf = lf
      ∨ (lf.state = LeafState.dead ∧ (respawnPhase nowMs p lf).state = LeafState.alive))
    ∧ (lf.state ≠ LeafState.alive → collideStartEat q lf nowMs = (false, lf))
    ∧ (collideStartEat q lf nowMs = (false, lf)
      ∨ (lf.state = LeafState.alive ∧ (collideStartEat q lf nowMs).1 = true
          ∧ (collideStartEat q lf nowMs).2.state = LeafState.eating))
    ∧ (finishPhase nowMs d lf = lf
      ∨ (lf.state = LeafState.eating ∧ (finishPhase nowMs d lf).state = LeafState.dead))
    ∧ (lf.state = LeafState.eating → (stepLeaf q nowMs p d lf).state ≠ LeafState.alive)
    ∧ (lf.state = LeafState.eating → (stepLeaf q nowMs p d lf).state = LeafState.eating →
        (stepLeaf q nowMs p d lf).eatStartMs = lf.eatStartMs) := by
  refine ⟨?_, ?_, ?_, ?_, ?_, ?_⟩
  · by_cases h : lf.state = LeafState.dead ∧ lf.respawnAt ≤ nowMs
    · exact Or.inr ⟨h.1, by simp [respawnPhase, h, respawnLeaf]⟩
    · exact Or.inl (by simp [respawnPhase, h])
  · intro h
    simp [collideStartEat, h]
  · by_cases h : lf.state = LeafState.alive
    · by_cases hc : dist2 q.x q.y lf.x lf.y ≤ (q.r + lf.r) * (q.r + lf.r)
      · exact Or.inr ⟨h, by simp [collideStartEat, h, hc], by
          simp [collideStartEat, h, hc, startEatLeaf]⟩
      · exact Or.inl (by simp [collideStartEat, h, hc])
    · exact Or.inl (by simp [collideStartEat, h])
  · by_cases h : lf.state = LeafState.eating ∧ (lf.eatDurationMs : ℤ) ≤ (nowMs : ℤ) - lf.eatStartMs
    · exact Or.inr ⟨h.1, by simp [finishPhase, h, finishEatLeaf]⟩
    · exact Or.inl (by simp [finishPhase, h])
  · intro h
    have h1 : respawnPhase nowMs p lf = lf := by simp [respawnPhase, h]
    have h2 : collideStartEat q lf nowMs = (false, lf) := by simp [collideStartEat, h]
    unfold stepLeaf
    rw [h1, h2]
    by_cases hts : (lf.eatDurationMs : ℤ) ≤ (nowMs : ℤ) - lf.eatStartMs
    · simp [finishPhase, h, hts, finishEatLeaf]
    · simp [finishPhase, h, hts]
  · intro h hs
    have h1 : respawnPhase nowMs p lf = lf := by simp [respawnPhase, h]
    have h2 : collideStartEat q lf nowMs = (false, lf) := by simp [collideStartEat, h]
    by_cases hf : lf.state = LeafState.eating ∧ (lf.eatDurationMs : ℤ) ≤ (nowMs : ℤ) - lf.eatStartMs
    · exfalso
      have hd : (stepLeaf q nowMs p d lf).state = LeafState.dead := by
        unfold stepLeaf
        rw [h1, h2]
        simp [finishPhase, hf, finishEatLeaf]
      rw [hd] at hs
      exact absurd hs (by decide)
    · have he : stepLeaf q nowMs p d lf = lf := by
        unfold stepLeaf
        rw [h1, h2]
        simp [finishPhase, hf]
      rw [he]

/-- Witness for C2: a leaf in state `eating` is ignored by the collision
test and is never `alive` right after a step. -/
theorem scene_item_lifecycle_witness :
    collideStartEat qInit lfEating 300 = (false, lfEating)
    ∧ (stepLeaf qInit 300 (100, 150) 1400 lfEating).state ≠ LeafState.alive :=
  ⟨(scene_item_lifecycle lfEating qInit 300 (100, 150) 1400).2.1 (by decide),
   (scene_item_lifecycle lfEating qInit 300 (100, 150) 1400).2.2.2.2.1 rfl⟩

/- ---- C6 ---- -/

/-- C6: after every walker update — for every step time, every random
heading/delay outcome and every damping value — the walker position
satisfies `20 ≤ x ≤ WIDTH - 20` and `groundY + 12 ≤ y ≤ HEIGHT - 10`
(the configured canvas must admit the box, which the 720x200 default
does). -/
theorem walker_bounds (q : Quokka) (dtSec : ℚ) (nowMs : ℕ) (groundY W H : ℚ)
    (cosA sinA : ℚ) (dirDelay : ℕ) (damp : ℚ)
    (hW : (20:ℚ) ≤ W - 20) (hH : groundY + 12 ≤ H - 10) :
    20 ≤ (updateQuokka q dtSec nowMs groundY W H cosA sinA dirDelay damp).x
    ∧ (updateQuokka q dtSec nowMs groundY W H cosA sinA dirDelay damp).x ≤ W - 20
    ∧ groundY + 12 ≤ (updateQuokka q dtSec nowMs groundY W H cosA sinA dirDelay damp).y
    ∧ (updateQuokka q dtSec nowMs groundY W H cosA sinA dirDelay damp).y ≤ H - 10 := by
  refine ⟨?_, ?_, ?_, ?_⟩
  · exact (clampQ_bounds _ _ _ hW).1
  · exact (clampQ_bounds _ _ _ hW).2
  · exact (clampQ_bounds _ _ _ hH).1
  · exact (clampQ_bounds _ _ _ hH).2

/-- Witness for C6 at the default 720x200 canvas. -/
theorem walker_bounds_witness :
    20 ≤ (updateQuokka qInit (1/12) 0 116 720 200 1 0 400 (1/2)).x
    ∧ (updateQuokka qInit (1/12) 0 116 720 200 1 0 400 (1/2)).x ≤ 720 - 20
    ∧ 116 + 12 ≤ (updateQuokka qInit (1/12) 0 116 720 200 1 0 400 (1/2)).y
    ∧ (updateQuokka qInit (1/12) 0 116 720 200 1 0 400 (1/2)).y ≤ 200 - 10 :=
  walker_bounds qInit (1/12) 0 116 720 200 1 0 400 (1/2) (by norm_num) (by norm_num)

/- ---- C7 ---- -/

/-- C7: across one frame, the popup list grows by at most one popup per
collision fired in that frame (and does not grow at all when no collision
fires), and after the frame every surviving popup is within its 1200 ms
lifetime — a popup whose lifetime has elapsed is removed by the very step
that observes it. -/
theorem popup_lifecycle (o : StepOracle) (nowMs : ℕ) (dtSec groundY W H : ℚ) (s : SimState) :
    (simStep o nowMs dtSec groundY W H s).popups.length
      ≤ s.popups.length
        + ((collidePairs o nowMs dtSec groundY W H s).filter fun pr => pr.2.1).length
    ∧ (((collidePairs o nowMs dtSec groundY W H s).filter fun pr => pr.2.1).length = 0 →
        (simStep o nowMs dtSec groundY W H s).popups.length ≤ s.popups.length)
    ∧ ∀ pp ∈ (simStep o nowMs dtSec groundY W H s).popups,
        (nowMs : ℤ) - pp.startMs ≤ pp.durationMs := by
  have hpop : (simStep o nowMs dtSec groundY W H s).popups
      = updatePopups
          (s.popups ++ ((collidePairs o nowMs dtSec groundY W H s).filter fun pr => pr.2.1).map
            (fun pr =>
              createPopup pr.1.label
                (updateQuokka s.quokka dtSec nowMs groundY W H o.cosA o.sinA o.dirDelay o.damp).x
                (updateQuokka s.quokka dtSec nowMs groundY W H o.cosA o.sinA o.dirDelay o.damp).y
                nowMs))
          nowMs := rfl
  refine ⟨?_, ?_, ?_⟩
  · rw [hpop]
    unfold updatePopups
    calc (List.filter _ _).length
        ≤ (s.popups ++ _).length := List.length_filter_le _ _
      _ = s.popups.length + (List.map _ _).length := List.length_append _ _
      _ = s.popups.length
            + ((collidePairs o nowMs dtSec groundY W H s).filter fun pr => pr.2.1).length := by
          rw [List.length_map]
  · intro h0
    have hnil : ((collidePairs o nowMs dtSec groundY W H s).filter fun pr => pr.2.1) = [] :=
      List.length_eq_zero.mp h0
    rw [hpop, hnil]
    simp only [List.map_nil, List.append_nil]
    exact List.length_filter_le _ _
  · intro pp hm
    rw [hpop] at hm
    unfold updatePopups at hm
    exact of_decide_eq_true (List.mem_filter.mp hm).2

/-- Witness for C7: a frame with no collision does not grow the popup
list (here it removes a stale popup). -/
theorem popup_lifecycle_witness :
    (simStep oracle0 2000 (1/12) 116 720 200 simState0).popups.length
      ≤ simState0.popups.length :=
  (popup_lifecycle oracle0 2000 (1/12) 116 720 200 simState0).2.1 rfl

/- ---- C10 ---- -/

theorem traceAux_length (o : ℕ → StepOracle) (fps groundY W H : ℚ) :
    ∀ (k i : ℕ) (s : SimState), (traceAux o fps groundY W H k i s).length = k := by
  intro k
  induction k with
  | zero => intro i s; rfl
  | succ n ih =>
    intro i s
    simp [traceAux, ih]

/-- C10: the number of simulation steps (one GIF frame appended per step)
equals `max(1, floor(fps * duration))` for every parameter pair, so the
renderer always runs at least one step and emits at least one frame, even
when `fps * duration < 1`. -/
theorem gif_frame_count (o : ℕ → StepOracle) (fps dur groundY W H : ℚ) (init : SimState) :
    (simTrace o fps dur groundY W H init).length = framesOf fps dur
    ∧ (framesOf fps dur : ℤ) = max 1 ⌊fps * dur⌋
    ∧ 1 ≤ (simTrace o fps dur groundY W H init).length := by
  have h1 : (simTrace o fps dur groundY W H init).length = framesOf fps dur :=
    traceAux_length o fps groundY W H (framesOf fps dur) 0 init
  have h0 : (0:ℤ) ≤ max 1 ⌊fps * dur⌋ := le_trans zero_le_one (le_max_left 1 _)
  have h3 : 1 ≤ framesOf fps dur := Int.toNat_le_toNat (le_max_left 1 ⌊fps * dur⌋)
  exact ⟨h1, Int.toNat_of_nonneg h0, by rw [h1]; exact h3⟩

/- ---- helper lemmas for the syncer ---- -/

theorem startsW_nil (pat : List Char) (h : pat ≠ []) : startsW [] pat = false := by
  cases pat with
  | nil => exact absurd rfl h
  | cons a l => rfl

theorem startsW_append_self (pat suf : List Char) : startsW (pat ++ suf) pat = true := by
  induction pat with
  | nil => cases suf <;> rfl
  | cons c cs ih => simp [startsW, ih]

theorem findSub_some (pat : List Char) (hpat : pat ≠ []) :
    ∀ (i : ℕ) (s : List Char), occAt s pat i → (∀ k, k < i → ¬ occAt s pat k) →
      findSub pat s = some i := by
  intro i
  induction i with
  | zero =>
    intro s h _
    cases s with
    | nil =>
      have h2 : startsW [] pat = true := h
      exact absurd h2 (by simp [startsW_nil pat hpat])
    | cons c t =>
      have h2 : startsW (c :: t) pat = true := h
      simp [findSub, h2]
  | succ n ih =>
    intro s h hmin
    have h0 : ¬ occAt s pat 0 := hmin 0 (Nat.succ_pos n)
    cases s with
    | nil =>
      have h2 : startsW [] pat = true := h
      exact absurd h2 (by simp [startsW_nil pat hpat])
    | cons c t =>
      have hsw : startsW (c :: t) pat = false := by
        cases hb : startsW (c :: t) pat
        · rfl
        · exact absurd hb h0
      have ht : occAt t pat n := h
      have hmint : ∀ k, k < n → ¬ occAt t pat k := fun k hk =>
        hmin (k + 1) (Nat.succ_lt_succ hk)
      simp [findSub, hsw, ih t ht hmint]

theorem findMarkerMatch_some :
    ∀ (i : ℕ) (s : List Char) (j : ℕ),
      occAt s startChars i → (∀ k, k < i → ¬ occAt s startChars k) →
      occAt s endChars j → startChars.length + i ≤ j →
      (∀ k, startChars.length + i ≤ k → k < j → ¬ occAt s endChars k) →
      findMarkerMatch s = some (i, j) := by
  intro i
  induction i with
  | zero =>
    intro s j h1 _ h3 h4 h5
    cases s with
    | nil =>
      have h2 : startsW [] startChars = true := h1
      exact absurd h2 (by decide)
    | cons c t =>
      have hsw : startsW (c :: t) startChars = true := h1
      have hLj : startChars.length ≤ j := by omega
      have hfs : findSub endChars ((c :: t).drop startChars.length)
          = some (j - startChars.length) := by
        apply findSub_some endChars (by decide)
        · show startsW
            (List.drop (j - startChars.length) (List.drop startChars.length (c :: t)))
            endChars = true
          rw [List.drop_drop, Nat.add_sub_cancel' hLj]
          exact h3
        · intro k hk
          show ¬ startsW (List.drop k (List.drop startChars.length (c :: t))) endChars = true
          rw [List.drop_drop]
          exact h5 (startChars.length + k) (by omega) (by omega)
      have hj : startChars.length + (j - startChars.length) = j := by omega
      simp [findMarkerMatch, hsw, hfs, hj]
  | succ n ih =>
    intro s j h1 hmin h3 h4 h5
    cases s with
    | nil =>
      have h2 : startsW [] startChars = true := h1
      exact absurd h2 (by decide)
    | cons c t =>
      have h0 : ¬ occAt (c :: t) startChars 0 := hmin 0 (Nat.succ_pos n)
      have hsw : startsW (c :: t) startChars = false := by
        cases hb : startsW (c :: t) startChars
        · rfl
        · exact absurd hb h0
      have hj1 : 1 ≤ j := by omega
      have ht1 : occAt t startChars n := h1
      have hmt : ∀ k, k < n → ¬ occAt t startChars k := fun k hk =>
        hmin (k + 1) (Nat.succ_lt_succ hk)
      have ht3 : occAt t endChars (j - 1) := by
        show startsW (List.drop (j - 1) t) endChars = true
        have hdj : List.drop (j - 1) t = List.drop j (c :: t) := by
          cases j with
          | zero => omega
          | succ m => simp
        rw [hdj]
        exact h3
      have ht4 : startChars.length + n ≤ j - 1 := by omega
      have ht5 : ∀ k, startChars.length + n ≤ k → k < j - 1 → ¬ occAt t endChars k := by
        intro k hka hkb hocc
        exact h5 (k + 1) (by omega) (by omega) hocc
      have hrec := ih t (j - 1) ht1 hmt ht3 ht4 ht5
      have hjj : j - 1 + 1 = j := by omega
      simp [findMarkerMatch, hsw, hrec, hjj]

theorem mem_insertPost (key : Post → ℤ) (p x : Post) :
    ∀ l, x ∈ insertPost key p l ↔ x = p ∨ x ∈ l := by
  intro l
  induction l with
  | nil => simp [insertPost]
  | cons q qs ih =>
    by_cases h : key q ≤ key p
    · simp [insertPost, h]
    · simp [insertPost, h, ih]
      tauto

theorem pairwise_insertPost (key : Post → ℤ) (p : Post) :
    ∀ l, List.Pairwise (fun a b => key b ≤ key a) l →
      List.Pairwise (fun a b => key b ≤ key a) (insertPost key p l) := by
  intro l
  induction l with
  | nil =>
    intro _
    simp [insertPost]
  | cons q qs ih =>
    intro hp
    rw [List.pairwise_cons] at hp
    obtain ⟨hq, hqs⟩ := hp
    by_cases h : key q ≤ key p
    · have hgoal : List.Pairwise (fun a b => key b ≤ key a) (p :: q :: qs) := by
        rw [List.pairwise_cons]
        refine ⟨?_, by rw [List.pairwise_cons]; exact ⟨hq, hqs⟩⟩
        intro x hx
        rcases List.mem_cons.mp hx with h1 | h2
        · rw [h1]; exact h
        · exact le_trans (hq x h2) h
      simpa [insertPost, h] using hgoal
    · have hgoal : List.Pairwise (fun a b => key b ≤ key a) (q :: insertPost key p qs) := by
        rw [List.pairwise_cons]
        refine ⟨?_, ih hqs⟩
        intro x hx
        rcases (mem_insertPost key p x qs).mp hx with h1 | h2
        · rw [h1]; exact le_of_lt (lt_of_not_ge h)
        · exact hq x h2
      simpa [insertPost, h] using hgoal

theorem mem_sortPosts (key : Post → ℤ) (x : Post) :
    ∀ l, x ∈ sortPosts key l ↔ x ∈ l := by
  intro l
  induction l with
  | nil => simp [sortPosts]
  | cons p ps ih => simp [sortPosts, mem_insertPost, ih]

theorem pairwise_sortPosts (key : Post → ℤ) :
    ∀ l, List.Pairwise (fun a b => key b ≤ key a) (sortPosts key l) := by
  intro l
  induction l with
  | nil => simp [sortPosts]
  | cons p ps ih => exact pairwise_insertPost key p (sortPosts key ps) ih

/- ---- C3 ---- -/

/-- C3 (amended): the run exits non-zero exactly when the credential is
absent or empty, or the remote root listing is not a sequence, or at least
one post was collected and the target document is missing or lacks at least
one of the two delimiter markers; all per-folder failures are non-fatal
(they never appear in the fatality condition). -/
theorem readme_fatal_characterization (env : SyncEnv) (dateVal : String → ℤ)
    (fmtDate : String → String) :
    isFatal (mainSync env dateVal fmtDate) = fatalSpec env dateVal := by
  obtain ⟨tok, root, rm⟩ := env
  cases htok : tokenOk tok with
  | false => simp [mainSync, fatalSpec, htok, isFatal]
  | true =>
    cases root with
    | nonArray => simp [mainSync, fatalSpec, getLatestPosts, htok, isFatal]
    | arr entries =>
      by_cases hlen : (latestList entries dateVal).length = 0
      · simp [mainSync, fatalSpec, getLatestPosts, htok, isFatal, hlen]
      · have hpos : 0 < (latestList entries dateVal).length := Nat.pos_of_ne_zero hlen
        cases rm with
        | none => simp [mainSync, fatalSpec, getLatestPosts, htok, isFatal, hlen, hpos]
        | some readme =>
          by_cases hmk :
              (containsSub readme.data startChars && containsSub readme.data endChars) = true
          · simp [mainSync, fatalSpec, getLatestPosts, htok, isFatal, hlen, hpos, hmk]
          · have hmk2 :
                (containsSub readme.data startChars && containsSub readme.data endChars)
                  = false := by
              cases hb : (containsSub readme.data startChars && containsSub readme.data endChars)
              · rfl
              · exact absurd hb hmk
            simp [mainSync, fatalSpec, getLatestPosts, htok, isFatal, hlen, hpos, hmk2]

/-- Counterexample to C3 as stated: with a valid credential, an array root
listing with one qualifying folder, and a README containing the start
marker but not the end marker, the run is fatal although none of the three
claimed cases holds (the document does not lack both markers — it has
one). -/
theorem readme_fatal_counterexample :
    isFatal (mainSync env3 dv0 fmt0) = true
    ∧ tokenOk env3.token = true
    ∧ env3.root ≠ RootResp.nonArray
    ∧ containsSub readme3.data startChars = true := by
  refine ⟨by decide, by decide, ?_, by decide⟩
  intro h
  have h2 : RootResp.arr [folderA] = RootResp.nonArray := h
  exact RootResp.noConfusion h2

/- ---- C4 ---- -/

/-- C4 (amended): the collected list has length at most `MAX_POSTS = 5`,
is sorted by parsed date in non-increasing (descending, ties allowed)
order, and every record in it comes from a folder of type `dir` that had a
content file and truthy `title` and `date` frontmatter fields — skipped
folders never contribute a record. -/
theorem readme_output_list (entries : List RemoteFolder) (dateVal : String → ℤ) :
    (latestList entries dateVal).length ≤ maxPosts
    ∧ List.Pairwise (fun a b => dateVal b.date ≤ dateVal a.date) (latestList entries dateVal)
    ∧ ∀ p ∈ latestList entries dateVal,
        ∃ f, f ∈ entries ∧ f.typ = "dir" ∧ processFolder f = some p := by
  refine ⟨List.length_take_le maxPosts _, ?_, ?_⟩
  · exact (pairwise_sortPosts (fun p => dateVal p.date) (collectPosts entries)).sublist
      (List.take_sublist maxPosts _)
  · intro p hp
    have h1 : p ∈ sortPosts (fun p => dateVal p.date) (collectPosts entries) :=
      List.take_subset _ _ hp
    have h2 : p ∈ collectPosts entries := (mem_sortPosts _ p _).mp h1
    unfold collectPosts at h2
    rcases List.mem_filterMap.mp h2 with ⟨f, hf, hpf⟩
    have hf2 := List.mem_filter.mp hf
    exact ⟨f, hf2.1, eq_of_beq hf2.2, hpf⟩

/-- Witness for C4 on the end-to-end example folder of the spec. -/
theorem readme_output_list_witness :
    (latestList [folderW] dv0).length ≤ maxPosts
    ∧ ∃ f, f ∈ [folderW] ∧ f.typ = "dir" ∧ processFolder f = some postW :=
  ⟨(readme_output_list [folderW] dv0).1,
   (readme_output_list [folderW] dv0).2.2 postW (by decide)⟩

/-- Counterexample to C4 as stated: two qualifying folders with the same
date yield a two-element output whose parsed dates are equal, so the output
is not sorted *strictly* descending. -/
theorem readme_sort_not_strict :
    latestList [folderA, folderB] dv0
      = [{ title := "T", date := "D", description := "", slug := "a",
           url := "https://oddn.ai.kr/a" },
         { title := "T", date := "D", description := "", slug := "b",
           url := "https://oddn.ai.kr/b" }]
    ∧ ¬ List.Pairwise (fun a b => dv0 b.date < dv0 a.date) (latestList [folderA, folderB] dv0) := by
  constructor
  · decide
  · decide

/- ---- C8 ---- -/

/-- C8: a run only rewrites the region between the two marker lines: when
the README decomposes as `pre ++ start ++ mid ++ end ++ rest` (with the
shown start the first start-marker occurrence and the shown end the first
end-marker occurrence after it), the written document is
`pre ++ newSection ++ rest` — the text outside the markers, and the marker
lines themselves, are byte-identical; and when zero qualifying posts are
collected the run performs no write at all. -/
theorem readme_frame_condition
    (pre mid rest : List Char) (posts : List Post) (fmtDate : String → String)
    (env : SyncEnv) (entries : List RemoteFolder) (dateVal : String → ℤ)
    (h1 : ∀ k, k < pre.length →
      ¬ occAt (pre ++ startChars ++ mid ++ endChars ++ rest) startChars k)
    (h2 : ∀ k, k < pre.length + startChars.length + mid.length →
      pre.length + startChars.length ≤ k →
      ¬ occAt (pre ++ startChars ++ mid ++ endChars ++ rest) endChars k)
    (htok : tokenOk env.token = true)
    (henv : env.root = RootResp.arr entries)
    (hzero : latestList entries dateVal = []) :
    replaceMarkers (pre ++ startChars ++ mid ++ endChars ++ rest) (sectionChars posts fmtDate)
      = pre ++ sectionChars posts fmtDate ++ rest
    ∧ mainSync env dateVal fmtDate = Except.ok none := by
  constructor
  · have hR : pre ++ startChars ++ mid ++ endChars ++ rest
        = pre ++ (startChars ++ (mid ++ (endChars ++ rest))) := by
      simp [List.append_assoc]
    have hoccS : occAt (pre ++ startChars ++ mid ++ endChars ++ rest) startChars pre.length := by
      show startsW
        (List.drop pre.length (pre ++ startChars ++ mid ++ endChars ++ rest))
        startChars = true
      rw [hR, List.drop_left]
      exact startsW_append_self startChars (mid ++ (endChars ++ rest))
    have hoccE : occAt (pre ++ startChars ++ mid ++ endChars ++ rest) endChars
        (pre.length + startChars.length + mid.length) := by
      have hassoc : pre ++ startChars ++ mid ++ endChars ++ rest
          = (pre ++ startChars ++ mid) ++ (endChars ++ rest) := by
        simp [List.append_assoc]
      have hlen : (pre ++ startChars ++ mid).length
          = pre.length + startChars.length + mid.length := by
        simp [List.length_append]
        omega
      show startsW
        (List.drop (pre.length + startChars.length + mid.length)
          (pre ++ startChars ++ mid ++ endChars ++ rest)) endChars = true
      rw [hassoc, List.drop_left' hlen]
      exact startsW_append_self endChars rest
    have hm := findMarkerMatch_some pre.length (pre ++ startChars ++ mid ++ endChars ++ rest)
      (pre.length + startChars.length + mid.length) hoccS h1 hoccE (by omega)
      (fun k hka hkb => h2 k hkb (by omega))
    have htake : (pre ++ startChars ++ mid ++ endChars ++ rest).take pre.length = pre := by
      rw [hR]
      exact List.take_left pre _
    have hlen2 : (pre ++ startChars ++ mid ++ endChars).length
        = pre.length + startChars.length + mid.length + endChars.length := by
      simp [List.length_append]
      omega
    have hdrop : (pre ++ startChars ++ mid ++ endChars ++ rest).drop
        (pre.length + startChars.length + mid.length + endChars.length) = rest :=
      List.drop_left' hlen2
    simp only [replaceMarkers, hm]
    rw [htake, hdrop]
  · simp [mainSync, htok, getLatestPosts, henv, hzero]

/-- Witness for C8: a concrete README around the markers, rewritten with
one generated line; and a concrete zero-post run that does not write. -/
theorem readme_frame_condition_witness :
    replaceMarkers (preW ++ startChars ++ midW ++ endChars ++ restW)
        (sectionChars [postW] fmt0)
      = preW ++ sectionChars [postW] fmt0 ++ restW
    ∧ mainSync env8 dv0 fmt0 = Except.ok none :=
  readme_frame_condition preW midW restW [postW] fmt0 env8 [] dv0
    (by decide) (by decide) (by decide) rfl rfl
